import Mathlib

/-!
Shallow embedding of `tools/foozzie/v8_foozzie.py` (V8 correctness-fuzzer
launcher) together with the boundary collaborators it uses.  Pure helper
functions of the script become Lean functions; the sequential pipeline in
`main` becomes an explicit function that also returns the list of launched
subprocess commands (the Process Runner call trace) and the text printed to
stdout.  The two companion modules `v8_commands` and `v8_suppressions` are
not part of this repository checkout; they are modelled as boundary oracles
(an `exec` function and a `Suppression` record of predicate functions)
following the specification's description of those collaborators.
-/

namespace Foozzie

/-! ### Python string primitives (modelled from CPython semantics) -/

/-- Whitespace characters stripped by Python's `str.strip()`. -/
def isPySpace (c : Char) : Bool :=
  c = ' ' || c = '\t' || c = '\n' || c = '\x0d' || c = '\x0b' || c = '\x0c'

/-- Python `str.strip()`: drop whitespace from both ends. -/
def pyStrip (s : String) : String :=
  ⟨((s.data.dropWhile isPySpace).reverse.dropWhile isPySpace).reverse⟩

/-- Split a character list at every occurrence of the separator. -/
def splitCharList (sep : Char) : List Char → List (List Char)
  | [] => [[]]
  | c :: rest =>
    let r := splitCharList sep rest
    if c = sep then [] :: r
    else
      match r with
      | [] => [[c]]
      | h :: t => (c :: h) :: t

/-- Python `str.splitlines()` restricted to newline-separated text (the only
form that occurs after `strip()` in this program). -/
def splitlines (s : String) : List String :=
  if s.data = [] then [] else (splitCharList '\n' s.data).map (fun l => ⟨l⟩)

/-- Python `os.path.dirname` (POSIX flavour). -/
def dirname (p : String) : String :=
  let head := (p.data.reverse.dropWhile (fun c => c ≠ '/')).reverse
  if head ≠ [] ∧ head.any (fun c => c ≠ '/') then
    ⟨(head.reverse.dropWhile (fun c => c = '/')).reverse⟩
  else ⟨head⟩

/-- Python `os.path.basename` (POSIX flavour). -/
def basename (p : String) : String :=
  ⟨(p.data.reverse.takeWhile (fun c => c ≠ '/')).reverse⟩

/-- Python `os.path.join` for two components (POSIX flavour). -/
def joinPath (a b : String) : String :=
  if b.data.take 1 = ['/'] then b
  else if a = "" then b
  else if a.data.reverse.take 1 = ['/'] then a ++ b
  else a ++ "/" ++ b

/-- Python slicing `s[n:]`. -/
def strDrop (s : String) (n : Nat) : String := ⟨s.data.drop n⟩

/-- Python slicing `s[:n]`. -/
def strTake (s : String) (n : Nat) : String := ⟨s.data.take n⟩

/-- Python `s.endswith(suffix)`. -/
def strEndsWith (s suffix : String) : Bool :=
  s.data.reverse.take suffix.data.length = suffix.data.reverse

/-- Python `sep.join(parts)`. -/
def joinWith (sep : String) : List String → String
  | [] => ""
  | [x] => x
  | x :: y :: xs => x ++ sep ++ joinWith sep (y :: xs)

/-- Truthiness of an optional string result, as Python evaluates
`if x:` for `x` that is `None` or a string. -/
def optTruthy : Option String → Bool
  | none => false
  | some s => s ≠ ""

/-! ### Program constants (from v8_foozzie.py) -/

/-- Configuration registry `CONFIGS` (v8_foozzie.py lines 22-31), as an ordered
association list from configuration name to its extra flags. -/
def CONFIGS : List (String × List String) :=
  [ ("default", []),
    ("validate_asm", ["--validate-asm"]),
    ("fullcode", ["--nocrankshaft", "--turbo-filter=~"]),
    ("noturbo", ["--turbo-filter=~", "--noturbo-asm"]),
    ("noturbo_opt", ["--always-opt", "--turbo-filter=~", "--noturbo-asm"]),
    ("ignition_staging", ["--ignition-staging"]),
    ("ignition_turbo", ["--ignition-staging", "--turbo"]),
    ("ignition_turbo_opt", ["--ignition-staging", "--turbo", "--always-opt"]) ]

/-- Timeout in seconds for one d8 run. -/
def TIMEOUT : Nat := 3

/-- Return code for the pass verdict. -/
def RETURN_PASS : Int := 0

/-- Return code for every fail verdict. -/
def RETURN_FAIL : Int := 2

/-- Preamble scripts, each joined onto the script's base directory
(v8_foozzie.py lines 41-44). -/
def PREAMBLE (basePath : String) : List String :=
  [joinPath basePath "v8_mock.js", joinPath basePath "v8_suppressions.js"]

/-- Fixed safety/debug flags passed to every run (v8_foozzie.py lines 46-47). -/
def FLAGS : List String :=
  ["--abort_on_stack_overflow", "--expose-gc", "--allow-natives-syntax",
   "--invoke-weak-callbacks", "--omit-quit", "--es-staging"]

/-- Supported architecture names (v8_foozzie.py line 49). -/
def SUPPORTED_ARCHS : List String := ["ia32", "x64", "arm", "arm64"]

/-- Template `FAILURE_HEADER_TEMPLATE` (v8_foozzie.py lines 52-57) applied to
its three interpolated fields. -/
def FAILURE_HEADER_TEMPLATE (configs sources suppression : String) : String :=
  "#\n# V8 correctness failure\n" ++
  "# V8 correctness configs: " ++ configs ++ "\n" ++
  "# V8 correctness sources: " ++ sources ++ "\n" ++
  "# V8 correctness suppression: " ++ suppression ++ "\n"

/-- Template `FAILURE_TEMPLATE` (v8_foozzie.py lines 59-80) applied to its
interpolated fields: the failure header followed by the extended body with
the `CHECK` marker, flag dumps, difference and both output blocks. -/
def FAILURE_TEMPLATE (configs sources suppression first_config_label
    second_config_label first_config_flags second_config_flags
    difference first_config_output second_config_output : String) : String :=
  FAILURE_HEADER_TEMPLATE configs sources suppression ++
  "#\n" ++ "# CHECK" ++ "\n#\n" ++
  "# Compared " ++ first_config_label ++ " with " ++ second_config_label ++ "\n#\n" ++
  "# Flags of " ++ first_config_label ++ ":\n" ++ first_config_flags ++ "\n" ++
  "# Flags of " ++ second_config_label ++ ":\n" ++ second_config_flags ++ "\n" ++
  "#\n# Difference:\n" ++ difference ++ "\n#\n" ++
  "### Start of configuration " ++ first_config_label ++ ":\n" ++
  first_config_output ++ "\n" ++
  "### End of configuration " ++ first_config_label ++ "\n#\n" ++
  "### Start of configuration " ++ second_config_label ++ ":\n" ++
  second_config_output ++ "\n" ++
  "### End of configuration " ++ second_config_label ++ "\n"

/-! ### Data model for the boundary collaborators -/

/-- Modelled from the spec: exit status category of one subprocess run,
"enum{Normal, TimedOut, Crashed}. Exactly one exitCategory holds"; the
`v8_commands` module providing it is not part of this checkout. -/
inductive ExitCategory where
  | normal
  | timedOut
  | crashed
deriving DecidableEq

/-- Modelled from the spec: the normalized outcome of one subprocess run as
returned by the Process Runner (`v8_commands.Execute`, not in this checkout):
exit status category, captured stdout, captured stderr. -/
structure ExecutionResult where
  exitCategory : ExitCategory
  stdout : String
  stderr : String
deriving DecidableEq

/-- Accessor `output.HasTimedOut()` used by `pass_bailout`. -/
def ExecutionResult.HasTimedOut (r : ExecutionResult) : Bool :=
  r.exitCategory = .timedOut

/-- Accessor `output.HasCrashed()` used by `pass_bailout`. -/
def ExecutionResult.HasCrashed (r : ExecutionResult) : Bool :=
  r.exitCategory = .crashed

/-- Modelled from the spec: the suppression object returned by
`v8_suppressions.get_suppression` (module not in this checkout) — an input
predicate, two per-side output predicates and a diff function, each returning
`None` or a string. -/
structure Suppression where
  ignore : String → Option String
  ignore_by_output1 : String → Option String
  ignore_by_output2 : String → Option String
  diff : String → String → Option String

/-- Subprocess invocation as handed to the Process Runner: argument vector,
working directory and timeout. -/
structure Command where
  args : List String
  cwd : String
  timeout : Nat
deriving DecidableEq

/-- Metadata object parsed from the metadata JSON file; only its `sources`
list is used (for fingerprinting). -/
structure Metadata where
  sources : List String
deriving DecidableEq

/-- Python-level error classes relevant to the top-level handler:
`SystemExit` (argparse usage errors) versus every other exception. -/
inductive PyErr where
  | systemExit
  | exception (msg : String)
deriving DecidableEq

/-- Environment of boundary collaborators: filesystem, path resolution, JSON
parsing, the Process Runner, the suppression factory, and process-level
constants.  All are oracles the pipeline is parametric in. -/
structure Env where
  fs_exists : String → Bool
  fs_isfile : String → Bool
  fs_read : String → String
  abspath : String → String
  parse_json : String → Option Metadata
  exec : Command → ExecutionResult
  get_suppression : String → String → String → String → Suppression
  sys_executable : String
  base_path : String
  format_exc : String

/-! ### Argument parsing (`parse_args`, v8_foozzie.py lines 83-151) -/

/-- Raw option values as delivered by a successful `argparse` parse
(defaults already applied; `second_d8` keeps its `None` default). -/
structure ArgValues where
  random_seed : Int
  first_arch : String
  second_arch : String
  first_config : String
  second_config : String
  first_d8 : String
  second_d8 : Option String
  testcase : String
deriving DecidableEq

/-- Validated options produced by `parse_args`: the raw values plus the
derived metadata path and absolutized executable paths. -/
structure Options where
  random_seed : Int
  first_arch : String
  second_arch : String
  first_config : String
  second_config : String
  first_d8 : String
  second_d8 : String
  testcase : String
  meta_data_path : String
deriving DecidableEq

/-- Companion resources file path derived from the testcase path
(v8_foozzie.py lines 120-122): strip the `fuzz` prefix from the basename,
prepend `resources`, same directory. -/
def resources_path (testcase : String) : String :=
  joinPath (dirname testcase) ("resources" ++ strDrop (basename testcase) 4)

/-- Metadata path named by the single line of the resources file
(v8_foozzie.py lines 126-130). -/
def meta_data_path_of (env : Env) (testcase : String) : String :=
  joinPath (dirname (resources_path testcase))
    ((splitlines (pyStrip (env.fs_read (resources_path testcase)))).headD "")

/-- Executable used for the second run: `second_d8 or first_d8`
(v8_foozzie.py line 135, Python falsy-or). -/
def second_d8_of (a : ArgValues) : String :=
  match a.second_d8 with
  | none => a.first_d8
  | some s => if s = "" then a.first_d8 else s

/-- The record `parse_args` returns when every assertion holds. -/
def mkOptions (env : Env) (a : ArgValues) : Options :=
  { random_seed := a.random_seed
    first_arch := a.first_arch
    second_arch := a.second_arch
    first_config := a.first_config
    second_config := a.second_config
    first_d8 := env.abspath a.first_d8
    second_d8 := env.abspath (second_d8_of a)
    testcase := a.testcase
    meta_data_path := meta_data_path_of env a.testcase }

/-- A Python `assert cond`: proceed when the condition holds, raise an
`AssertionError` otherwise. -/
def py_assert : Bool → Except PyErr Unit
  | true => .ok ()
  | false => .error (.exception "AssertionError")

/-- Validation body of `parse_args` after a successful `argparse` parse
(v8_foozzie.py lines 106-151).  Each Python `assert` becomes a `py_assert`
step, in source order. -/
def parse_args_checks (env : Env) (a : ArgValues) : Except PyErr Options :=
  py_assert (a.first_arch != a.second_arch ||
             a.first_config != a.second_config) >>= fun _ =>
  py_assert (SUPPORTED_ARCHS.contains a.first_arch) >>= fun _ =>
  py_assert (SUPPORTED_ARCHS.contains a.second_arch) >>= fun _ =>
  py_assert (CONFIGS.lookup a.first_config).isSome >>= fun _ =>
  py_assert (CONFIGS.lookup a.second_config).isSome >>= fun _ =>
  py_assert (env.fs_exists a.testcase && env.fs_isfile a.testcase) >>= fun _ =>
  py_assert (env.fs_exists (resources_path a.testcase)) >>= fun _ =>
  py_assert ((splitlines (pyStrip (env.fs_read
      (resources_path a.testcase)))).length == 1) >>= fun _ =>
  py_assert (env.fs_exists (meta_data_path_of env a.testcase)) >>= fun _ =>
  py_assert (env.fs_exists (env.abspath a.first_d8)) >>= fun _ =>
  py_assert (env.fs_exists (env.abspath (second_d8_of a))) >>= fun _ =>
  (if a.first_arch != a.second_arch then
    py_assert (env.abspath a.first_d8 != env.abspath (second_d8_of a))
  else .ok ()) >>= fun _ =>
  .ok (mkOptions env a)

/-- The full `parse_args`: an `argparse` failure (modelled as absent
`ArgValues`) raises `SystemExit`; otherwise the assertion chain runs. -/
def parse_args (env : Env) : Option ArgValues → Except PyErr Options
  | none => .error .systemExit
  | some a => parse_args_checks env a

/-! ### Pipeline helpers (v8_foozzie.py lines 154-185) -/

/-- Function `test_pattern_bailout` (lines 154-162): given the testcase file
content and the suppression input predicate, return whether to bail out
together with the text printed. -/
def test_pattern_bailout (testcase_content : String)
    (ignore_fun : String → Option String) : Bool × String :=
  let bug := pyStrip ((ignore_fun testcase_content).getD "")
  if bug = "" then (false, "")
  else (true, FAILURE_HEADER_TEMPLATE "" "" bug ++ "\n")

/-- Function `pass_bailout` (lines 165-175): timeout takes precedence over
crash; either one bails out to the pass verdict, with a dashed marker line. -/
def pass_bailout (output : ExecutionResult) (step_number : Nat) : Bool × String :=
  if output.HasTimedOut then
    (true, "# V8 correctness - T-I-M-E-O-U-T " ++ toString step_number ++ "\n")
  else if output.HasCrashed then
    (true, "# V8 correctness - C-R-A-S-H " ++ toString step_number ++ "\n")
  else (false, "")

/-- Function `fail_bailout` (lines 178-185): bail out to the fail verdict if
the output-based suppression predicate matches the run's stdout. -/
def fail_bailout (output : ExecutionResult)
    (ignore_by_output_fun : String → Option String) : Bool × String :=
  let bug := pyStrip ((ignore_by_output_fun output.stdout).getD "")
  if bug = "" then (false, "")
  else (true, FAILURE_HEADER_TEMPLATE "" "" bug ++ "\n")

/-! ### SHA-1 (model of `hashlib.sha1(...).hexdigest()` over byte strings) -/

/-- Reduction modulo 2^32. -/
def w32 (n : Nat) : Nat := n % 4294967296

/-- Left-rotation of a 32-bit word by `b` places (`0 < b < 32`). -/
def rotl (x b : Nat) : Nat := w32 (x * 2 ^ b) + x / 2 ^ (32 - b)

/-- SHA-1 round function. -/
def sha1F (t b c d : Nat) : Nat :=
  if t < 20 then (b &&& c) ||| ((b ^^^ 4294967295) &&& d)
  else if t < 40 then (b ^^^ c) ^^^ d
  else if t < 60 then ((b &&& c) ||| (b &&& d)) ||| (c &&& d)
  else (b ^^^ c) ^^^ d

/-- SHA-1 round constants. -/
def sha1K (t : Nat) : Nat :=
  if t < 20 then 1518500249
  else if t < 40 then 1859775393
  else if t < 60 then 2400959708
  else 3395469782

/-- Big-endian byte expansion of a number into `k` bytes. -/
def bytesBE : Nat → Nat → List Nat
  | 0, _ => []
  | k + 1, n => bytesBE k (n / 256) ++ [n % 256]

/-- SHA-1 message padding: a 0x80 byte, zeros to 56 mod 64, then the
64-bit big-endian bit length. -/
def sha1Pad (msg : List Nat) : List Nat :=
  msg ++ [128] ++ List.replicate ((119 - (msg.length % 64)) % 64) 0 ++
    bytesBE 8 (msg.length * 8)

/-- Split into 64-byte chunks (fuel-driven structural recursion). -/
def chunksAux : Nat → List Nat → List (List Nat)
  | 0, _ => []
  | _, [] => []
  | fuel + 1, l => l.take 64 :: chunksAux fuel (l.drop 64)

/-- All 64-byte chunks of a padded message. -/
def chunks64 (l : List Nat) : List (List Nat) := chunksAux l.length l

/-- Combine four bytes at a time into big-endian 32-bit words. -/
def beWords : List Nat → List Nat
  | b0 :: b1 :: b2 :: b3 :: rest => (((b0 * 256 + b1) * 256 + b2) * 256 + b3) :: beWords rest
  | _ => []

/-- Extend the 16 chunk words to the 80-entry message schedule. -/
def sha1Schedule (ws16 : List Nat) : List Nat :=
  (List.range 64).foldl
    (fun ws _ =>
      let n := ws.length
      ws ++ [rotl (((ws.getD (n - 3) 0) ^^^ (ws.getD (n - 8) 0)) ^^^
                   ((ws.getD (n - 14) 0) ^^^ (ws.getD (n - 16) 0))) 1])
    ws16

/-- Process one 64-byte chunk into the running five-word state. -/
def sha1Compress (h : List Nat) (chunk : List Nat) : List Nat :=
  let w := sha1Schedule (beWords chunk)
  let st := (List.range 80).foldl
    (fun st t =>
      match st with
      | (a, b, c, d, e) =>
        (w32 (rotl a 5 + sha1F t b c d + e + sha1K t + w.getD t 0),
         a, rotl b 30, c, d))
    (h.getD 0 0, h.getD 1 0, h.getD 2 0, h.getD 3 0, h.getD 4 0)
  match st with
  | (a, b, c, d, e) =>
    [w32 (h.getD 0 0 + a), w32 (h.getD 1 0 + b), w32 (h.getD 2 0 + c),
     w32 (h.getD 3 0 + d), w32 (h.getD 4 0 + e)]

/-- SHA-1 digest as five 32-bit words. -/
def sha1Words (msg : List Nat) : List Nat :=
  (chunks64 (sha1Pad msg)).foldl sha1Compress
    [1732584193, 4023233417, 2562383102, 271733878, 3285377520]

/-- Lower-case hexadecimal digit characters. -/
def hexDigitChar (n : Nat) : Char := "0123456789abcdef".data.getD n '0'

/-- Fixed-width lower-case hexadecimal rendering. -/
def toHexFixed : Nat → Nat → List Char
  | 0, _ => []
  | k + 1, n => toHexFixed k (n / 16) ++ [hexDigitChar (n % 16)]

/-- `hashlib.sha1(bytes).hexdigest()`: 40 lower-case hex characters. -/
def sha1hex (msg : List Nat) : String :=
  ⟨((sha1Words msg).map (toHexFixed 8)).flatten⟩

/-- Bytes of a Python 2 `str` (byte string); source identifiers and test
sources are ASCII, where byte values and code points coincide. -/
def strToBytes (s : String) : List Nat := s.data.map Char.toNat

/-- The `hsh` lambda in `main` (v8_foozzie.py line 242):
`hashlib.sha1(x).hexdigest()[:8]`. -/
def hsh (x : String) : String := strTake (sha1hex (strToBytes x)) 8

/-- Source fingerprint: `','.join(map(hsh, metadata['sources']))`
(v8_foozzie.py line 245). -/
def fingerprint (sources : List String) : String :=
  joinWith "," (sources.map hsh)

/-! ### The pipeline (`main`, v8_foozzie.py lines 188-262) -/

/-- Suppression object for the parsed options (v8_foozzie.py lines 192-195). -/
def suppressionOf (env : Env) (opts : Options) : Suppression :=
  env.get_suppression opts.first_arch opts.first_config
    opts.second_arch opts.second_config

/-- Function `run_d8` (v8_foozzie.py lines 208-217): build the command for one
run; a `.py` executable is wrapped with the Python interpreter (tests). -/
def run_d8 (env : Env) (opts : Options) (d8 : String)
    (config_flags : List String) : Command :=
  let args := [d8] ++ config_flags ++ PREAMBLE env.base_path ++ [opts.testcase]
  let args := if strEndsWith d8 ".py" then [env.sys_executable] ++ args else args
  ⟨args, dirname opts.testcase, TIMEOUT⟩

/-- Text printed for a difference (v8_foozzie.py lines 243-254), a
`FAILURE_TEMPLATE` instantiation followed by the `print` newline. -/
def failure_report (opts : Options) (metadata : Metadata)
    (first_config_flags second_config_flags : List String)
    (first_out second_out difference : String) : String :=
  let first_config_label := opts.first_arch ++ "," ++ opts.first_config
  let second_config_label := opts.second_arch ++ "," ++ opts.second_config
  FAILURE_TEMPLATE
    (first_config_label ++ ":" ++ second_config_label)
    (fingerprint metadata.sources)
    ""
    first_config_label second_config_label
    (joinWith " " first_config_flags) (joinWith " " second_config_flags)
    difference first_out second_out ++ "\n"

/-- Observable outcome of `main`: the returned code or raised error, the
commands handed to the Process Runner in order, and the text printed. -/
structure MainRes where
  ret : Except PyErr Int
  trace : List Command
  printed : String

/-- Body of `main` after a successful `parse_args` (v8_foozzie.py
lines 191-262). -/
def v8_main_body (env : Env) (opts : Options) : MainRes :=
    let suppress := suppressionOf env opts
    let tpb := test_pattern_bailout (env.fs_read opts.testcase) suppress.ignore
    if tpb.1 then ⟨.ok RETURN_FAIL, [], tpb.2⟩
    else
      match env.parse_json (env.fs_read opts.meta_data_path) with
      | none => ⟨.error (.exception "ValueError"), [], ""⟩
      | some metadata =>
        match CONFIGS.lookup opts.first_config, CONFIGS.lookup opts.second_config with
        | some first_extra, some second_extra =>
          let common_flags := FLAGS ++ ["--random-seed", toString opts.random_seed]
          let first_config_flags := common_flags ++ first_extra
          let second_config_flags := common_flags ++ second_extra
          let cmd1 := run_d8 env opts opts.first_d8 first_config_flags
          let first_config_output := env.exec cmd1
          let pb1 := pass_bailout first_config_output 1
          if pb1.1 then ⟨.ok RETURN_PASS, [cmd1], pb1.2⟩
          else
            let fb1 := fail_bailout first_config_output suppress.ignore_by_output1
            if fb1.1 then ⟨.ok RETURN_FAIL, [cmd1], fb1.2⟩
            else
              let cmd2 := run_d8 env opts opts.second_d8 second_config_flags
              let second_config_output := env.exec cmd2
              let pb2 := pass_bailout second_config_output 2
              if pb2.1 then ⟨.ok RETURN_PASS, [cmd1, cmd2], pb2.2⟩
              else
                let fb2 := fail_bailout second_config_output suppress.ignore_by_output2
                if fb2.1 then ⟨.ok RETURN_FAIL, [cmd1, cmd2], fb2.2⟩
                else
                  let difference :=
                    suppress.diff first_config_output.stdout second_config_output.stdout
                  if optTruthy difference then
                    ⟨.ok RETURN_FAIL, [cmd1, cmd2],
                     failure_report opts metadata first_config_flags second_config_flags
                       first_config_output.stdout second_config_output.stdout
                       (difference.getD "")⟩
                  else ⟨.ok RETURN_PASS, [cmd1, cmd2], "# V8 correctness - pass\n"⟩
        | _, _ => ⟨.error (.exception "KeyError"), [], ""⟩

/-- Function `main` (v8_foozzie.py lines 188-262) as a function of the
boundary environment, returning the observable outcome. -/
def v8_main (env : Env) (argv : Option ArgValues) : MainRes :=
  match parse_args env argv with
  | .error e => ⟨.error e, [], ""⟩
  | .ok opts => v8_main_body env opts

/-- Final process outcome: exit code, Process Runner trace, printed text. -/
structure TopRes where
  ret : Int
  trace : List Command
  printed : String
deriving DecidableEq

/-- The `__main__` block (v8_foozzie.py lines 265-281): run `main`, catch
`SystemExit` as wrong usage and any other exception as an internal error,
always producing a well-formed exit code. -/
def v8_foozzie_top (env : Env) (argv : Option ArgValues) : TopRes :=
  let r := v8_main env argv
  match r.ret with
  | .ok code => ⟨code, r.trace, r.printed⟩
  | .error .systemExit =>
    ⟨RETURN_FAIL, r.trace,
     r.printed ++ FAILURE_HEADER_TEMPLATE "" "" "wrong_usage" ++ "\n"⟩
  | .error (.exception e) =>
    ⟨RETURN_FAIL, r.trace,
     r.printed ++ FAILURE_HEADER_TEMPLATE "" "" "internal_error" ++ "\n" ++
     "# Internal error: " ++ e ++ "\n" ++ env.format_exc⟩

/-! ### Concrete test fixtures

Small closed environments used to evaluate the pipeline at concrete inputs.
`envBase` resolves every path, returns a one-line resources file naming
`meta.json`, parses metadata with a single source, and runs both
configurations to a normal exit with identical stdout. -/

/-- Suppression object whose predicates never match and whose diff reports
no difference. -/
def ignoreNone : Suppression :=
  ⟨fun _ => none, fun _ => none, fun _ => none, fun _ _ => none⟩

/-- Suppression object whose input predicate always matches. -/
def ignoreInput : Suppression :=
  ⟨fun _ => some "known_bug", fun _ => none, fun _ => none, fun _ _ => none⟩

/-- Suppression object whose second output predicate always matches. -/
def ignoreOut2 : Suppression :=
  ⟨fun _ => none, fun _ => none, fun _ => some "out2bug", fun _ _ => none⟩

/-- Baseline closed environment. -/
def envBase : Env :=
  { fs_exists := fun _ => true
    fs_isfile := fun _ => true
    fs_read := fun p => if p = "dir/resourcescase.js" then "meta.json" else "print(1)"
    abspath := fun s => s
    parse_json := fun _ => some ⟨["src1"]⟩
    exec := fun _ => ⟨.normal, "42\n", ""⟩
    get_suppression := fun _ _ _ _ => ignoreNone
    sys_executable := "python"
    base_path := "base"
    format_exc := "" }

/-- Environment whose runs time out. -/
def envTimeout : Env := { envBase with exec := fun _ => ⟨.timedOut, "", ""⟩ }

/-- Environment whose suppression input predicate matches the test case. -/
def envPreMatch : Env :=
  { envBase with get_suppression := fun _ _ _ _ => ignoreInput }

/-- Environment with a matching input predicate and unparseable metadata. -/
def envPreMatchNoMeta : Env :=
  { envPreMatch with parse_json := fun _ => none }

/-- Environment whose suppression engine matches the second run's output. -/
def envOut2Match : Env :=
  { envBase with get_suppression := fun _ _ _ _ => ignoreOut2 }

/-- Well-formed argument values with differing configurations. -/
def argvStd : ArgValues :=
  ⟨12345, "x64", "x64", "default", "fullcode", "d8", none, "dir/fuzzcase.js"⟩

/-- Argument values with identical architectures and configurations. -/
def argvSame : ArgValues :=
  ⟨1, "x64", "x64", "fullcode", "fullcode", "d8", none, "dir/fuzzcase.js"⟩

/-- Argument values whose first executable is a `.py` wrapper. -/
def argvPy : ArgValues :=
  ⟨1, "x64", "x64", "default", "fullcode", "w.py", none, "dir/fuzzcase.js"⟩

/-! ### In-order containment of marker strings in a report

`ContainsInOrder parts s` is the semantic notion "the parts occur in `s`,
in this order, without overlap".  `appearsInOrder` is an executable greedy
matcher over character lists; `occurs_appears` proves the greedy matcher
complete, so a `false` result of the matcher refutes `ContainsInOrder`. -/

/-- The parts occur in the string in the given order, without overlap,
possibly with gaps before, between and after them. -/
def ContainsInOrder : List String → String → Prop
  | [], _ => True
  | p :: ps, s => ∃ g rest, s = g ++ p ++ rest ∧ ContainsInOrder ps rest

/-- Associativity of string append. -/
theorem sappend_assoc (a b c : String) : a ++ b ++ c = a ++ (b ++ c) := by
  apply String.ext
  show (a.data ++ b.data) ++ c.data = a.data ++ (b.data ++ c.data)
  exact List.append_assoc a.data b.data c.data

/-- A part found right at the front of the string. -/
theorem contains_block {ps : List String} {p s : String}
    (h : ContainsInOrder ps s) : ContainsInOrder (p :: ps) (p ++ s) :=
  ⟨"", s, rfl, h⟩

/-- Containment is preserved by prepending arbitrary text. -/
theorem contains_pad {ps : List String} {g s : String}
    (h : ContainsInOrder ps s) : ContainsInOrder ps (g ++ s) := by
  match ps, h with
  | [], _ => trivial
  | p :: ps, ⟨g', rest, hEq, h'⟩ =>
    exact ⟨g ++ g', rest, by rw [hEq, ← sappend_assoc, ← sappend_assoc], h'⟩

/-- Drop the text after the first occurrence of the pattern, scanning left
to right; `none` when the pattern does not occur. -/
def findDrop (p : List Char) : List Char → Option (List Char)
  | [] => if p = [] then some [] else none
  | c :: rest =>
    if p.isPrefixOf (c :: rest) then some (List.drop p.length (c :: rest))
    else findDrop p rest

/-- Greedy in-order matcher for a list of patterns. -/
def appearsInOrder : List (List Char) → List Char → Bool
  | [], _ => true
  | p :: ps, s =>
    match findDrop p s with
    | none => false
    | some r => appearsInOrder ps r

/-- Occurrence witness for patterns appearing in order in a character list. -/
inductive OccursInOrder : List (List Char) → List Char → Prop where
  | nil (s : List Char) : OccursInOrder [] s
  | cons (p : List Char) (ps : List (List Char)) (a b : List Char)
      (h : OccursInOrder ps b) : OccursInOrder (p :: ps) (a ++ p ++ b)

/-- Of two suffixes of the same list, the shorter is a suffix of the longer. -/
theorem suffix_of_suffix_length_le {l1 l2 l3 : List Char}
    (h1 : l1 <:+ l3) (h2 : l2 <:+ l3) (h : l1.length ≤ l2.length) : l1 <:+ l2 := by
  rw [← List.reverse_prefix] at h1 h2 ⊢
  exact List.prefix_of_prefix_length_le h1 h2 (by simpa)

/-- Scanning a list that contains an occurrence of the pattern finds one, and
the remainder it returns extends the remainder of the given occurrence. -/
theorem findDrop_of_occurrence (p a b : List Char) :
    ∃ r, findDrop p (a ++ p ++ b) = some r ∧ b <:+ r := by
  induction a with
  | nil =>
    match hpb : p ++ b with
    | [] =>
      have hp : p = [] := by cases p <;> simp_all
      have hb : b = [] := by cases p <;> simp_all
      subst hp hb
      exact ⟨[], rfl, List.nil_suffix⟩
    | c :: rest =>
      refine ⟨b, ?_, List.suffix_refl b⟩
      have hpre : p.isPrefixOf (c :: rest) = true := by
        rw [List.isPrefixOf_iff_prefix, ← hpb]
        exact ⟨b, rfl⟩
      show findDrop p (c :: rest) = some b
      unfold findDrop
      rw [if_pos hpre, ← hpb, List.drop_left]
  | cons c a ih =>
    show ∃ r, findDrop p (c :: (a ++ p ++ b)) = some r ∧ b <:+ r
    unfold findDrop
    by_cases hpre : p.isPrefixOf (c :: (a ++ p ++ b)) = true
    · refine ⟨List.drop p.length (c :: (a ++ p ++ b)), by rw [if_pos hpre], ?_⟩
      have hb : b <:+ c :: (a ++ p ++ b) := ⟨c :: a ++ p, by simp⟩
      have hd : List.drop p.length (c :: (a ++ p ++ b)) <:+ c :: (a ++ p ++ b) :=
        List.drop_suffix _ _
      apply suffix_of_suffix_length_le hb hd
      rw [List.isPrefixOf_iff_prefix] at hpre
      have := hpre.length_le
      simp only [List.length_drop, List.length_cons, List.length_append] at *
      omega
    · rw [if_neg hpre]
      exact ih

/-- Occurrence witnesses transport along list suffixes. -/
theorem occurs_suffix {ps : List (List Char)} {b r : List Char}
    (h : OccursInOrder ps b) (hs : b <:+ r) : OccursInOrder ps r := by
  cases h with
  | nil => exact .nil r
  | cons p ps a b h =>
    obtain ⟨e, he⟩ := hs
    rw [← he, ← List.append_assoc, ← List.append_assoc]
    exact .cons p ps (e ++ a) b h

/-- Completeness of the greedy matcher: every occurrence witness makes the
matcher succeed. -/
theorem occurs_appears {ps : List (List Char)} {s : List Char}
    (h : OccursInOrder ps s) : appearsInOrder ps s = true := by
  induction ps generalizing s with
  | nil => rfl
  | cons p ps ih =>
    cases h with
    | cons _ _ a b hb =>
      obtain ⟨r, hfd, hsuf⟩ := findDrop_of_occurrence p a b
      unfold appearsInOrder
      rw [hfd]
      exact ih (occurs_suffix hb hsuf)

/-- Bridge from the string-level containment proposition to a character-level
occurrence witness. -/
theorem occurs_of_contains {ps : List String} {s : String}
    (h : ContainsInOrder ps s) :
    OccursInOrder (ps.map String.data) s.data := by
  induction ps generalizing s with
  | nil => exact .nil s.data
  | cons p ps ih =>
    obtain ⟨g, rest, hEq, h'⟩ := h
    have : s.data = g.data ++ p.data ++ rest.data := by rw [hEq]; rfl
    rw [List.map_cons, this]
    exact .cons p.data _ g.data rest.data (ih h')

/-! ### Structural lemmas about the pipeline -/

/-- Inversion of one successful `py_assert` step. -/
theorem py_assert_bind {α : Type} {b : Bool} {k : Unit → Except PyErr α} {v : α}
    (h : (py_assert b >>= k) = .ok v) : b = true ∧ k () = .ok v := by
  cases hb : b
  · rw [hb] at h
    exact Except.noConfusion h
  · rw [hb] at h
    exact ⟨rfl, h⟩

/-- Inversion through the conditional final assertion of `parse_args`. -/
theorem py_assert_guard {α : Type} {c : Prop} [Decidable c] {b : Bool}
    {k : Unit → Except PyErr α} {v : α}
    (h : ((if c then py_assert b else .ok ()) >>= k) = .ok v) : k () = .ok v := by
  by_cases hc : c
  · rw [if_pos hc] at h
    exact (py_assert_bind h).2
  · rw [if_neg hc] at h
    exact h

/-- Every successful `parse_args` validation passed the sanity checks and
returned exactly the derived `mkOptions` record. -/
theorem parse_args_checks_ok_inv {env : Env} {a : ArgValues} {opts : Options}
    (h : parse_args_checks env a = .ok opts) :
    (a.first_arch != a.second_arch || a.first_config != a.second_config) = true ∧
    SUPPORTED_ARCHS.contains a.first_arch = true ∧
    SUPPORTED_ARCHS.contains a.second_arch = true ∧
    (CONFIGS.lookup a.first_config).isSome = true ∧
    (CONFIGS.lookup a.second_config).isSome = true ∧
    opts = mkOptions env a := by
  unfold parse_args_checks at h
  obtain ⟨c1, h⟩ := py_assert_bind h
  obtain ⟨c2, h⟩ := py_assert_bind h
  obtain ⟨c3, h⟩ := py_assert_bind h
  obtain ⟨c4, h⟩ := py_assert_bind h
  obtain ⟨c5, h⟩ := py_assert_bind h
  obtain ⟨_, h⟩ := py_assert_bind h
  obtain ⟨_, h⟩ := py_assert_bind h
  obtain ⟨_, h⟩ := py_assert_bind h
  obtain ⟨_, h⟩ := py_assert_bind h
  obtain ⟨_, h⟩ := py_assert_bind h
  obtain ⟨_, h⟩ := py_assert_bind h
  have h := py_assert_guard h
  exact ⟨c1, c2, c3, c4, c5, ((Except.ok.injEq _ _).mp h).symm⟩

/-- Stepping `main` through a successful parse. -/
theorem v8_main_ok {env : Env} {argv : Option ArgValues} {opts : Options}
    (hp : parse_args env argv = .ok opts) :
    v8_main env argv = v8_main_body env opts := by
  unfold v8_main
  rw [hp]

/-- Stepping `main` through a failed parse. -/
theorem v8_main_err {env : Env} {argv : Option ArgValues} {e : PyErr}
    (hp : parse_args env argv = .error e) :
    v8_main env argv = ⟨.error e, [], ""⟩ := by
  unfold v8_main
  rw [hp]

/-- A timed-out or crashed run triggers the pass bailout. -/
theorem pass_bailout_fst_true {o : ExecutionResult} (n : Nat)
    (h : o.HasTimedOut = true ∨ o.HasCrashed = true) :
    (pass_bailout o n).1 = true := by
  rcases h with h | h <;> simp [pass_bailout, h, apply_ite]

/-- A normally completed run does not trigger the pass bailout. -/
theorem pass_bailout_normal {o : ExecutionResult} (n : Nat)
    (hn : o.exitCategory = .normal) : pass_bailout o n = (false, "") := by
  simp [pass_bailout, ExecutionResult.HasTimedOut, ExecutionResult.HasCrashed, hn]

/-- Lifting a normal `main` outcome through the top-level handler. -/
theorem v8_foozzie_top_of_ok {env : Env} {argv : Option ArgValues} {code : Int}
    {trace : List Command} {printed : String}
    (h : v8_main env argv = ⟨.ok code, trace, printed⟩) :
    v8_foozzie_top env argv = ⟨code, trace, printed⟩ := by
  unfold v8_foozzie_top
  rw [h]

/-- Lifting a `SystemExit` through the top-level handler. -/
theorem v8_foozzie_top_of_systemExit {env : Env} {argv : Option ArgValues}
    {trace : List Command} {printed : String}
    (h : v8_main env argv = ⟨.error .systemExit, trace, printed⟩) :
    v8_foozzie_top env argv =
      ⟨RETURN_FAIL, trace,
       printed ++ FAILURE_HEADER_TEMPLATE "" "" "wrong_usage" ++ "\n"⟩ := by
  unfold v8_foozzie_top
  rw [h]

/-- Lifting an internal error through the top-level handler. -/
theorem v8_foozzie_top_of_exception {env : Env} {argv : Option ArgValues}
    {e : String} {trace : List Command} {printed : String}
    (h : v8_main env argv = ⟨.error (.exception e), trace, printed⟩) :
    v8_foozzie_top env argv =
      ⟨RETURN_FAIL, trace,
       printed ++ FAILURE_HEADER_TEMPLATE "" "" "internal_error" ++ "\n" ++
       "# Internal error: " ++ e ++ "\n" ++ env.format_exc⟩ := by
  unfold v8_foozzie_top
  rw [h]

/-- Content printed by a matching `test_pattern_bailout` call: the header-only
report with the stripped suppression reason. -/
theorem test_pattern_bailout_pos {c : String} {f : String → Option String}
    (h : (test_pattern_bailout c f).1 = true) :
    test_pattern_bailout c f =
      (true, FAILURE_HEADER_TEMPLATE "" "" (pyStrip ((f c).getD "")) ++ "\n") := by
  by_cases hb : pyStrip ((f c).getD "") = ""
  · exfalso
    unfold test_pattern_bailout at h
    rw [if_pos hb] at h
    exact Bool.noConfusion h
  · unfold test_pattern_bailout
    rw [if_neg hb]

/-- The top-level handler never changes the Process Runner trace. -/
theorem v8_foozzie_top_trace (env : Env) (argv : Option ArgValues) :
    (v8_foozzie_top env argv).trace = (v8_main env argv).trace := by
  unfold v8_foozzie_top
  dsimp only
  cases h : (v8_main env argv).ret with
  | ok code => rfl
  | error e => cases e <;> rfl

/-- Top-level outcome when `main` returns a code, stated on the return
projection only. -/
theorem v8_foozzie_top_of_ret_ok {env : Env} {argv : Option ArgValues} {n : Int}
    (h : (v8_main env argv).ret = .ok n) :
    v8_foozzie_top env argv =
      ⟨n, (v8_main env argv).trace, (v8_main env argv).printed⟩ := by
  unfold v8_foozzie_top
  dsimp only
  rw [h]

/-- Top-level outcome when `main` raises `SystemExit`, stated on the return
projection only. -/
theorem v8_foozzie_top_of_ret_systemExit {env : Env} {argv : Option ArgValues}
    (h : (v8_main env argv).ret = .error .systemExit) :
    v8_foozzie_top env argv =
      ⟨RETURN_FAIL, (v8_main env argv).trace,
       (v8_main env argv).printed ++
         FAILURE_HEADER_TEMPLATE "" "" "wrong_usage" ++ "\n"⟩ := by
  unfold v8_foozzie_top
  dsimp only
  rw [h]

/-- Top-level outcome when `main` raises any other exception, stated on the
return projection only. -/
theorem v8_foozzie_top_of_ret_exception {env : Env} {argv : Option ArgValues}
    {e : String} (h : (v8_main env argv).ret = .error (.exception e)) :
    v8_foozzie_top env argv =
      ⟨RETURN_FAIL, (v8_main env argv).trace,
       (v8_main env argv).printed ++
         FAILURE_HEADER_TEMPLATE "" "" "internal_error" ++ "\n" ++
         "# Internal error: " ++ e ++ "\n" ++ env.format_exc⟩ := by
  unfold v8_foozzie_top
  dsimp only
  rw [h]

/-- Argument vector built by `run_d8`, flattened. -/
theorem run_d8_args_shape (env : Env) (opts : Options) (d8 : String)
    (extra : List String) :
    (run_d8 env opts d8
      (FLAGS ++ ["--random-seed", toString opts.random_seed] ++ extra)).args =
    (if strEndsWith d8 ".py" then [env.sys_executable] else []) ++
      [d8] ++ FLAGS ++ ["--random-seed", toString opts.random_seed] ++ extra ++
      PREAMBLE env.base_path ++ [opts.testcase] := by
  unfold run_d8
  dsimp only
  split <;> simp [List.append_assoc]

/-- Case shape of the pipeline body: it returns the pass code, the fail code,
or raises with nothing printed. -/
theorem v8_main_body_shape (env : Env) (opts : Options) :
    ((v8_main_body env opts).ret = .ok RETURN_PASS ∨
     (v8_main_body env opts).ret = .ok RETURN_FAIL) ∨
    ((v8_main_body env opts).ret.isOk = false ∧
     (v8_main_body env opts).printed = "") := by
  unfold v8_main_body
  dsimp only
  repeat' split
  all_goals simp [Except.isOk, Except.toBool]

/-- Case shape of `main` itself. -/
theorem v8_main_shape (env : Env) (argv : Option ArgValues) :
    ((v8_main env argv).ret = .ok RETURN_PASS ∨
     (v8_main env argv).ret = .ok RETURN_FAIL) ∨
    ((v8_main env argv).ret.isOk = false ∧ (v8_main env argv).printed = "") := by
  cases hpa : parse_args env argv with
  | error e =>
    rw [v8_main_err hpa]
    right
    cases e <;> exact ⟨rfl, rfl⟩
  | ok opts =>
    rw [v8_main_ok hpa]
    exact v8_main_body_shape env opts

/-! ### Fingerprint structure lemmas -/

/-- Data of an appended string. -/
theorem sdata_append (a b : String) : (a ++ b).data = a.data ++ b.data := rfl

/-- Inverse of `splitCharList` at a separator-free component. -/
theorem splitCharList_no_sep (sep : Char) (l : List Char) (hl : sep ∉ l) :
    splitCharList sep l = [l] := by
  induction l with
  | nil => rfl
  | cons c l ih =>
    have hc : ¬c = sep := by
      intro h
      exact hl (h ▸ List.mem_cons_self c l)
    have hr := ih (fun h => hl (List.mem_cons_of_mem c h))
    show splitCharList sep (c :: l) = [c :: l]
    simp only [splitCharList]
    rw [hr, if_neg hc]

/-- Splitting strips the first separator-free component. -/
theorem splitCharList_append (sep : Char) (l rest : List Char) (hl : sep ∉ l) :
    splitCharList sep (l ++ sep :: rest) = l :: splitCharList sep rest := by
  induction l with
  | nil =>
    show splitCharList sep (sep :: rest) = [] :: splitCharList sep rest
    simp [splitCharList]
  | cons c l ih =>
    have hc : ¬c = sep := by
      intro h
      exact hl (h ▸ List.mem_cons_self c l)
    have hr := ih (fun h => hl (List.mem_cons_of_mem c h))
    show splitCharList sep (c :: (l ++ sep :: rest)) = (c :: l) :: splitCharList sep rest
    simp only [splitCharList]
    rw [hr, if_neg hc]

/-- Split a string at every occurrence of a separator character. -/
def splitString (sep : Char) (s : String) : List String :=
  (splitCharList sep s.data).map (fun l => ⟨l⟩)

/-- Splitting a comma-joined list of comma-free components recovers them. -/
theorem splitString_joinWith_comma (parts : List String)
    (h : ∀ p ∈ parts, ',' ∉ p.data) (hne : parts ≠ []) :
    splitString ',' (joinWith "," parts) = parts := by
  induction parts with
  | nil => exact absurd rfl hne
  | cons x parts ih =>
    match parts with
    | [] =>
      show (splitCharList ',' x.data).map (fun l => String.mk l) = [x]
      rw [splitCharList_no_sep ',' x.data (h x (List.mem_cons_self x []))]
      rfl
    | y :: ys =>
      have hx : ',' ∉ x.data := h x (List.mem_cons_self x _)
      have hrest : ∀ p ∈ y :: ys, ',' ∉ p.data :=
        fun p hp => h p (List.mem_cons_of_mem x hp)
      have hd : (joinWith "," (x :: y :: ys)).data =
          x.data ++ ',' :: (joinWith "," (y :: ys)).data := by
        show (x ++ "," ++ joinWith "," (y :: ys)).data = _
        rw [sdata_append, sdata_append, List.append_assoc]
        rfl
      show (splitCharList ',' (joinWith "," (x :: y :: ys)).data).map
          (fun l => String.mk l) = x :: y :: ys
      rw [hd, splitCharList_append ',' x.data _ hx, List.map_cons]
      have := ih hrest (by simp)
      unfold splitString at this
      rw [this]

/-- Every value of `hexDigitChar` is a lower-case hexadecimal digit. -/
theorem hexDigitChar_mem_hex (n : Nat) :
    hexDigitChar n ∈ "0123456789abcdef".data := by
  unfold hexDigitChar
  by_cases h : n < 16
  · interval_cases n <;> decide
  · rw [List.getD_eq_default]
    · decide
    · simp only [not_lt] at h
      calc "0123456789abcdef".data.length = 16 := by decide
        _ ≤ n := h

/-- Every character of a fixed-width hexadecimal rendering is a hex digit. -/
theorem toHexFixed_mem_hex (k n : Nat) :
    ∀ c ∈ toHexFixed k n, c ∈ "0123456789abcdef".data := by
  induction k generalizing n with
  | zero => intro c hc; cases hc
  | succ k ih =>
    intro c hc
    rcases List.mem_append.mp hc with h | h
    · exact ih _ c h
    · rcases List.mem_singleton.mp h with rfl
      exact hexDigitChar_mem_hex _

/-- Every character of a SHA-1 hex digest is a hex digit. -/
theorem sha1hex_mem_hex (msg : List Nat) :
    ∀ c ∈ (sha1hex msg).data, c ∈ "0123456789abcdef".data := by
  intro c hc
  have : c ∈ ((sha1Words msg).map (toHexFixed 8)).flatten := hc
  rw [List.mem_flatten] at this
  obtain ⟨l, hl, hcl⟩ := this
  rw [List.mem_map] at hl
  obtain ⟨w, _, rfl⟩ := hl
  exact toHexFixed_mem_hex 8 w c hcl

/-- Every character of an `hsh` value is a hex digit. -/
theorem hsh_mem_hex (x : String) :
    ∀ c ∈ (hsh x).data, c ∈ "0123456789abcdef".data :=
  fun c hc => sha1hex_mem_hex (strToBytes x) c (List.take_subset 8 _ hc)

/-- Commas never occur inside an `hsh` value. -/
theorem hsh_ne_comma (x : String) : ',' ∉ (hsh x).data := by
  intro h
  have := hsh_mem_hex x ',' h
  revert this
  decide

/-- Fixed-width hexadecimal renderings have the stated width. -/
theorem toHexFixed_length (k n : Nat) : (toHexFixed k n).length = k := by
  induction k generalizing n with
  | zero => rfl
  | succ k ih =>
    show (toHexFixed k (n / 16) ++ [hexDigitChar (n % 16)]).length = k + 1
    rw [List.length_append, ih]
    rfl

/-- One SHA-1 compression step returns a five-word state. -/
theorem sha1Compress_length (h chunk : List Nat) :
    (sha1Compress h chunk).length = 5 := rfl

/-- Folding the compression function preserves the five-word state length. -/
theorem foldl_sha1Compress_length (init : List Nat) (chunks : List (List Nat))
    (h : init.length = 5) : (List.foldl sha1Compress init chunks).length = 5 := by
  induction chunks generalizing init with
  | nil => exact h
  | cons c cs ih => exact ih (sha1Compress init c) rfl

/-- The SHA-1 digest consists of five words. -/
theorem sha1Words_length (msg : List Nat) : (sha1Words msg).length = 5 :=
  foldl_sha1Compress_length _ _ rfl

/-- A SHA-1 hex digest has 40 characters. -/
theorem sha1hex_length (msg : List Nat) : (sha1hex msg).data.length = 40 := by
  show ((sha1Words msg).map (toHexFixed 8)).flatten.length = 40
  rw [List.length_flatten]
  have h5 := sha1Words_length msg
  generalize hw : sha1Words msg = ws at h5
  match ws, h5 with
  | [a, b, c, d, e], _ =>
    simp [toHexFixed_length]

/-- An `hsh` value has exactly eight characters. -/
theorem hsh_length (x : String) : (hsh x).data.length = 8 := by
  show ((sha1hex (strToBytes x)).data.take 8).length = 8
  rw [List.length_take, sha1hex_length]
  decide

/-! ### Claim theorems -/

/-- C1: in every pipeline execution in which the first run's result is
TimedOut or Crashed, the verdict is Pass (exit code `RETURN_PASS`) and the
second configuration's process is never launched — the Process Runner trace
consists of exactly the first run's command; this holds for every suppression
engine, so the timeout/crash check takes precedence over the side's
output-based suppression check. -/
theorem c1_first_run_timeout_or_crash_passes_without_second_run
    (env : Env) (argv : Option ArgValues) (opts : Options)
    (e1 e2 : List String) (md : Metadata)
    (hp : parse_args env argv = .ok opts)
    (htpb : (test_pattern_bailout (env.fs_read opts.testcase)
        (suppressionOf env opts).ignore).1 = false)
    (hmeta : env.parse_json (env.fs_read opts.meta_data_path) = some md)
    (hl1 : CONFIGS.lookup opts.first_config = some e1)
    (hl2 : CONFIGS.lookup opts.second_config = some e2)
    (hbail : (env.exec (run_d8 env opts opts.first_d8
        (FLAGS ++ ["--random-seed", toString opts.random_seed] ++ e1))).HasTimedOut
          = true ∨
      (env.exec (run_d8 env opts opts.first_d8
        (FLAGS ++ ["--random-seed", toString opts.random_seed] ++ e1))).HasCrashed
          = true) :
    (v8_foozzie_top env argv).ret = RETURN_PASS ∧
    (v8_foozzie_top env argv).trace =
      [run_d8 env opts opts.first_d8
        (FLAGS ++ ["--random-seed", toString opts.random_seed] ++ e1)] := by
  have hpb := pass_bailout_fst_true 1 hbail
  have hbody : v8_main_body env opts =
      ⟨.ok RETURN_PASS,
       [run_d8 env opts opts.first_d8
         (FLAGS ++ ["--random-seed", toString opts.random_seed] ++ e1)],
       (pass_bailout (env.exec (run_d8 env opts opts.first_d8
         (FLAGS ++ ["--random-seed", toString opts.random_seed] ++ e1))) 1).2⟩ := by
    unfold v8_main_body
    dsimp only
    rw [htpb, hmeta, hl1, hl2]
    dsimp only
    rw [hpb]
    simp
  rw [v8_foozzie_top_of_ok ((v8_main_ok hp).trans hbody)]
  exact ⟨rfl, rfl⟩

/-- C1 witness: a concrete timed-out first run passes with a single launched
process. -/
theorem c1_witness :
    (v8_foozzie_top envTimeout (some argvStd)).ret = RETURN_PASS ∧
    (v8_foozzie_top envTimeout (some argvStd)).trace.length = 1 := by
  have h := c1_first_run_timeout_or_crash_passes_without_second_run
    envTimeout (some argvStd) (mkOptions envTimeout argvStd)
    [] ["--nocrankshaft", "--turbo-filter=~"] ⟨["src1"]⟩
    rfl rfl rfl rfl rfl (Or.inl rfl)
  exact ⟨h.1, by rw [h.2]; rfl⟩

/-- C3: with validated options, whenever the pre-run suppression predicate
matches the test-case source (the code's matching notion: the stripped result
is non-empty), the pipeline returns the fail code immediately, prints the
header-only pre-run bailout report with the matched reason, and no subprocess
is ever launched under either configuration. -/
theorem c3_prerun_suppression_match_fails_without_any_process
    (env : Env) (argv : Option ArgValues) (opts : Options)
    (hp : parse_args env argv = .ok opts)
    (hmatch : (test_pattern_bailout (env.fs_read opts.testcase)
        (suppressionOf env opts).ignore).1 = true) :
    (v8_foozzie_top env argv).ret = RETURN_FAIL ∧
    (v8_foozzie_top env argv).trace = [] ∧
    (v8_foozzie_top env argv).printed =
      FAILURE_HEADER_TEMPLATE "" ""
        (pyStrip (((suppressionOf env opts).ignore
          (env.fs_read opts.testcase)).getD "")) ++ "\n" := by
  have hbody : v8_main_body env opts =
      ⟨.ok RETURN_FAIL, [],
       (test_pattern_bailout (env.fs_read opts.testcase)
         (suppressionOf env opts).ignore).2⟩ := by
    unfold v8_main_body
    dsimp only
    rw [hmatch]
    simp
  rw [v8_foozzie_top_of_ok ((v8_main_ok hp).trans hbody)]
  refine ⟨rfl, rfl, ?_⟩
  rw [test_pattern_bailout_pos hmatch]

/-- C3 witness: a concrete matching input predicate yields the fail code, an
empty trace and the labelled header report. -/
theorem c3_witness :
    (v8_foozzie_top envPreMatch (some argvStd)).ret = RETURN_FAIL ∧
    (v8_foozzie_top envPreMatch (some argvStd)).trace = [] ∧
    (v8_foozzie_top envPreMatch (some argvStd)).printed =
      FAILURE_HEADER_TEMPLATE "" "" "known_bug" ++ "\n" :=
  c3_prerun_suppression_match_fails_without_any_process
    envPreMatch (some argvStd) (mkOptions envPreMatch argvStd) rfl rfl

/-- C10: the metadata file is read and parsed only after the pre-run
suppression check fails to match; on a match the verdict is the fail code
with no process launched, and the whole observable outcome is unchanged under
any replacement of the JSON parser — including one that rejects every input —
so unparseable metadata cannot affect that path. -/
theorem c10_metadata_unread_on_prerun_bailout
    (env : Env) (argv : Option ArgValues) (opts : Options)
    (hp : parse_args env argv = .ok opts)
    (hmatch : (test_pattern_bailout (env.fs_read opts.testcase)
        (suppressionOf env opts).ignore).1 = true) :
    (v8_foozzie_top env argv).ret = RETURN_FAIL ∧
    (v8_foozzie_top env argv).trace = [] ∧
    ∀ pj : String → Option Metadata,
      v8_foozzie_top { env with parse_json := pj } argv =
        v8_foozzie_top env argv := by
  have hbody : v8_main_body env opts =
      ⟨.ok RETURN_FAIL, [],
       (test_pattern_bailout (env.fs_read opts.testcase)
         (suppressionOf env opts).ignore).2⟩ := by
    unfold v8_main_body
    dsimp only
    rw [hmatch]
    simp
  have htop := v8_foozzie_top_of_ok ((v8_main_ok hp).trans hbody)
  refine ⟨by rw [htop], by rw [htop], ?_⟩
  intro pj
  have hp' : parse_args { env with parse_json := pj } argv = .ok opts := hp
  have hbody' : v8_main_body { env with parse_json := pj } opts =
      ⟨.ok RETURN_FAIL, [],
       (test_pattern_bailout (env.fs_read opts.testcase)
         (suppressionOf env opts).ignore).2⟩ := by
    unfold v8_main_body suppressionOf
    dsimp only
    rw [show (test_pattern_bailout (env.fs_read opts.testcase)
        (env.get_suppression opts.first_arch opts.first_config
          opts.second_arch opts.second_config).ignore).1 = true from hmatch]
    simp
  rw [v8_foozzie_top_of_ok ((v8_main_ok hp').trans hbody'), htop]

/-- C10 witness: with a JSON parser rejecting every input and a matching
pre-run predicate, the concrete pipeline still fails out with no process. -/
theorem c10_witness :
    (v8_foozzie_top envPreMatch (some argvStd)).ret = RETURN_FAIL ∧
    v8_foozzie_top envPreMatchNoMeta (some argvStd) =
      v8_foozzie_top envPreMatch (some argvStd) := by
  have h := c10_metadata_unread_on_prerun_bailout
    envPreMatch (some argvStd) (mkOptions envPreMatch argvStd) rfl rfl
  exact ⟨h.1, h.2.2 (fun _ => none)⟩

/-- C2 counterexample: the claim as stated — both runs complete Normal with
byte-identical stdout implies verdict Pass — is false: with a suppression
engine whose second output predicate matches, the concrete pipeline launches
both runs, both complete Normal with stdout `"42\n"`, yet the verdict is the
fail code `RETURN_FAIL`, not Pass (v8_foozzie.py lines 230-233). -/
theorem c2_counterexample :
    ((v8_foozzie_top envOut2Match (some argvStd)).trace.map
      (fun c => (envOut2Match.exec c).exitCategory)) =
        [.normal, .normal] ∧
    ((v8_foozzie_top envOut2Match (some argvStd)).trace.map
      (fun c => (envOut2Match.exec c).stdout)) = ["42\n", "42\n"] ∧
    (v8_foozzie_top envOut2Match (some argvStd)).ret = RETURN_FAIL := by
  decide

/-- C2 as amended: in every execution in which both runs complete with exit
category Normal and byte-identical stdout, and in which neither output-based
suppression predicate bails out, the verdict is Pass (exit code
`RETURN_PASS`), provided the suppression engine's diff satisfies its
specified normalization contract — a falsy result on equal inputs. -/
theorem c2_identical_normal_outputs_pass
    (env : Env) (argv : Option ArgValues) (opts : Options)
    (e1 e2 : List String) (md : Metadata)
    (hp : parse_args env argv = .ok opts)
    (htpb : (test_pattern_bailout (env.fs_read opts.testcase)
        (suppressionOf env opts).ignore).1 = false)
    (hmeta : env.parse_json (env.fs_read opts.meta_data_path) = some md)
    (hl1 : CONFIGS.lookup opts.first_config = some e1)
    (hl2 : CONFIGS.lookup opts.second_config = some e2)
    (hn1 : (env.exec (run_d8 env opts opts.first_d8
        (FLAGS ++ ["--random-seed", toString opts.random_seed] ++ e1))).exitCategory
          = .normal)
    (hfb1 : (fail_bailout (env.exec (run_d8 env opts opts.first_d8
        (FLAGS ++ ["--random-seed", toString opts.random_seed] ++ e1)))
        (suppressionOf env opts).ignore_by_output1).1 = false)
    (hn2 : (env.exec (run_d8 env opts opts.second_d8
        (FLAGS ++ ["--random-seed", toString opts.random_seed] ++ e2))).exitCategory
          = .normal)
    (hfb2 : (fail_bailout (env.exec (run_d8 env opts opts.second_d8
        (FLAGS ++ ["--random-seed", toString opts.random_seed] ++ e2)))
        (suppressionOf env opts).ignore_by_output2).1 = false)
    (hsame : (env.exec (run_d8 env opts opts.first_d8
        (FLAGS ++ ["--random-seed", toString opts.random_seed] ++ e1))).stdout =
      (env.exec (run_d8 env opts opts.second_d8
        (FLAGS ++ ["--random-seed", toString opts.random_seed] ++ e2))).stdout)
    (hdiff : ∀ s : String, optTruthy ((suppressionOf env opts).diff s s) = false) :
    (v8_foozzie_top env argv).ret = RETURN_PASS ∧
    (v8_foozzie_top env argv).printed = "# V8 correctness - pass\n" := by
  have hbody : v8_main_body env opts =
      ⟨.ok RETURN_PASS,
       [run_d8 env opts opts.first_d8
          (FLAGS ++ ["--random-seed", toString opts.random_seed] ++ e1),
        run_d8 env opts opts.second_d8
          (FLAGS ++ ["--random-seed", toString opts.random_seed] ++ e2)],
       "# V8 correctness - pass\n"⟩ := by
    unfold v8_main_body
    dsimp only
    rw [htpb, hmeta, hl1, hl2]
    dsimp only
    rw [pass_bailout_normal 1 hn1, pass_bailout_normal 2 hn2, hfb1, hfb2,
      hsame, hdiff]
    simp
  rw [v8_foozzie_top_of_ok ((v8_main_ok hp).trans hbody)]
  exact ⟨rfl, rfl⟩

/-- C2 witness: a concrete pair of normal runs with identical stdout and a
non-matching suppression engine passes. -/
theorem c2_witness :
    (v8_foozzie_top envBase (some argvStd)).ret = RETURN_PASS ∧
    (v8_foozzie_top envBase (some argvStd)).printed = "# V8 correctness - pass\n" :=
  c2_identical_normal_outputs_pass envBase (some argvStd)
    (mkOptions envBase argvStd) [] ["--nocrankshaft", "--turbo-filter=~"]
    ⟨["src1"]⟩ rfl rfl rfl rfl rfl rfl rfl rfl rfl rfl (fun _ => rfl)

/-- C4: for every invocation in which the two architectures are equal and the
two configuration names are equal, or in which an architecture or a
configuration name is outside the supported sets, argument validation rejects
the invocation with the fail (non-zero) exit code before any process is
launched. -/
theorem c4_validation_rejects_identical_or_unsupported
    (env : Env) (a : ArgValues)
    (h : (a.first_arch = a.second_arch ∧ a.first_config = a.second_config) ∨
         SUPPORTED_ARCHS.contains a.first_arch = false ∨
         SUPPORTED_ARCHS.contains a.second_arch = false ∨
         (CONFIGS.lookup a.first_config).isSome = false ∨
         (CONFIGS.lookup a.second_config).isSome = false) :
    (v8_foozzie_top env (some a)).ret = RETURN_FAIL ∧
    (v8_foozzie_top env (some a)).trace = [] := by
  have herr : ∃ e, parse_args_checks env a = .error e := by
    cases hpc : parse_args_checks env a with
    | error e => exact ⟨e, rfl⟩
    | ok opts =>
      exfalso
      obtain ⟨c1, c2, c3, c4, c5, _⟩ := parse_args_checks_ok_inv hpc
      rcases h with ⟨h1, h2⟩ | hx | hx | hx | hx
      · rw [h1, h2] at c1
        simp at c1
      · rw [hx] at c2
        exact Bool.noConfusion c2
      · rw [hx] at c3
        exact Bool.noConfusion c3
      · rw [hx] at c4
        exact Bool.noConfusion c4
      · rw [hx] at c5
        exact Bool.noConfusion c5
  obtain ⟨e, he⟩ := herr
  have hm : v8_main env (some a) = ⟨.error e, [], ""⟩ := v8_main_err he
  cases e with
  | systemExit =>
    rw [v8_foozzie_top_of_systemExit hm]
    exact ⟨rfl, rfl⟩
  | exception msg =>
    rw [v8_foozzie_top_of_exception hm]
    exact ⟨rfl, rfl⟩

/-- C4 witness: equal architectures with equal configurations are rejected
with the fail code and an empty process trace. -/
theorem c4_witness :
    (v8_foozzie_top envBase (some argvSame)).ret = RETURN_FAIL ∧
    (v8_foozzie_top envBase (some argvSame)).trace = [] :=
  c4_validation_rejects_identical_or_unsupported envBase argvSame
    (Or.inl ⟨rfl, rfl⟩)

/-- C5: the top-level handler is a total function to an exit code that is
always `RETURN_PASS` (0) or `RETURN_FAIL` (2); a `SystemExit` from argument
parsing is caught and reported via the header-only form with the fixed
`wrong_usage` label, any other internal error is caught and reported with the
fixed `internal_error` label, and a returned verdict code passes through
unchanged and is itself 0 or 2 — no error escapes. -/
theorem c5_exit_codes_and_error_labels (env : Env) (argv : Option ArgValues) :
    ((v8_foozzie_top env argv).ret = RETURN_PASS ∨
     (v8_foozzie_top env argv).ret = RETURN_FAIL) ∧
    ((v8_main env argv).ret = .error .systemExit →
      (v8_foozzie_top env argv).ret = RETURN_FAIL ∧
      (v8_foozzie_top env argv).printed =
        FAILURE_HEADER_TEMPLATE "" "" "wrong_usage" ++ "\n") ∧
    (∀ e : String, (v8_main env argv).ret = .error (.exception e) →
      (v8_foozzie_top env argv).ret = RETURN_FAIL ∧
      (v8_foozzie_top env argv).printed =
        FAILURE_HEADER_TEMPLATE "" "" "internal_error" ++ "\n" ++
        "# Internal error: " ++ e ++ "\n" ++ env.format_exc) ∧
    (∀ n : Int, (v8_main env argv).ret = .ok n →
      (v8_foozzie_top env argv).ret = n ∧
      (n = RETURN_PASS ∨ n = RETURN_FAIL)) := by
  have hshape := v8_main_shape env argv
  have hprint : ∀ er : PyErr, (v8_main env argv).ret = .error er →
      (v8_main env argv).printed = "" := by
    intro er her
    rcases hshape with (hok | hok) | ⟨_, hpr⟩
    · rw [her] at hok
      exact Except.noConfusion hok
    · rw [her] at hok
      exact Except.noConfusion hok
    · exact hpr
  refine ⟨?_, ?_, ?_, ?_⟩
  · cases hr : (v8_main env argv).ret with
    | ok n =>
      rw [v8_foozzie_top_of_ret_ok hr]
      rcases hshape with (hok | hok) | ⟨hnotok, _⟩
      · rw [hr] at hok
        exact Or.inl (Except.ok.inj hok)
      · rw [hr] at hok
        exact Or.inr (Except.ok.inj hok)
      · rw [hr] at hnotok
        exact Bool.noConfusion hnotok
    | error e =>
      cases e with
      | systemExit =>
        rw [v8_foozzie_top_of_ret_systemExit hr]
        exact Or.inr rfl
      | exception msg =>
        rw [v8_foozzie_top_of_ret_exception hr]
        exact Or.inr rfl
  · intro hr
    rw [v8_foozzie_top_of_ret_systemExit hr, hprint _ hr]
    exact ⟨rfl, rfl⟩
  · intro e hr
    rw [v8_foozzie_top_of_ret_exception hr, hprint _ hr]
    refine ⟨rfl, ?_⟩
    show "" ++ _ ++ "\n" ++ _ ++ _ ++ "\n" ++ _ = _
    rw [show ∀ s : String, "" ++ s = s from fun _ => rfl]
  · intro n hr
    rw [v8_foozzie_top_of_ret_ok hr]
    refine ⟨rfl, ?_⟩
    rcases hshape with (hok | hok) | ⟨hnotok, _⟩
    · rw [hr] at hok
      exact Or.inl (Except.ok.inj hok)
    · rw [hr] at hok
      exact Or.inr (Except.ok.inj hok)
    · rw [hr] at hnotok
      exact Bool.noConfusion hnotok

/-- C5 witness: a failed argument parse (modelled absent argument values)
exits with the fail code and the `wrong_usage` header report. -/
theorem c5_witness :
    (v8_foozzie_top envBase none).ret = RETURN_FAIL ∧
    (v8_foozzie_top envBase none).printed =
      FAILURE_HEADER_TEMPLATE "" "" "wrong_usage" ++ "\n" :=
  (c5_exit_codes_and_error_labels envBase none).2.1 rfl

/-- C9: whenever a suppression predicate returns `None`, the empty string, or
a whitespace-only string (exactly the results whose stripped default is
empty), the corresponding bailout does not trigger: `test_pattern_bailout`
and `fail_bailout` both return `(false, "")`, printing nothing, so the
pipeline proceeds as if no suppression matched. -/
theorem c9_falsy_suppression_results_do_not_bail
    (r : Option String) (h : pyStrip (r.getD "") = "") :
    (∀ (src : String) (f : String → Option String),
      f src = r → test_pattern_bailout src f = (false, "")) ∧
    (∀ (o : ExecutionResult) (g : String → Option String),
      g o.stdout = r → fail_bailout o g = (false, "")) := by
  constructor
  · intro src f hf
    unfold test_pattern_bailout
    rw [hf, h]
    simp
  · intro o g hg
    unfold fail_bailout
    rw [hg, h]
    simp

/-- C9 witness: a whitespace-only predicate result triggers neither bailout
at concrete inputs. -/
theorem c9_witness :
    test_pattern_bailout "print(1)" (fun _ => some " \n ") = (false, "") ∧
    fail_bailout ⟨.normal, "42\n", ""⟩ (fun _ => some " \n ") = (false, "") := by
  have h := c9_falsy_suppression_results_do_not_bail (some " \n ") (by decide)
  exact ⟨h.1 "print(1)" _ rfl, h.2 ⟨.normal, "42\n", ""⟩ _ rfl⟩

/-- C6 counterexample: at a concrete synthetic FailDifference instantiation,
the full-form report does NOT contain the claimed order — header fields, then
both labeled flag dumps, then the `CHECK` marker, then the diff text, then
the output blocks — because the `CHECK` marker precedes the flag dumps in the
emitted report. -/
theorem c6_counterexample :
    ¬ ContainsInOrder
      ["# V8 correctness configs: x64,default:x64,fullcode",
       "# V8 correctness sources: deadbeef",
       "# V8 correctness suppression: ",
       "# Flags of x64,default:\n--a --b",
       "# Flags of x64,fullcode:\n--c",
       "# CHECK",
       "line 1 differs",
       "### Start of configuration x64,default:\n[A]\n",
       "### End of configuration x64,default",
       "### Start of configuration x64,fullcode:\n[B]\n",
       "### End of configuration x64,fullcode"]
      (FAILURE_TEMPLATE "x64,default:x64,fullcode" "deadbeef" ""
        "x64,default" "x64,fullcode" "--a --b" "--c" "line 1 differs"
        "[A]\n" "[B]\n") :=
  fun h => absurd (occurs_appears (occurs_of_contains h)) (by decide)

theorem c6_full_report_field_order
    (configs sources suppression la lb f1 f2 dif o1 o2 : String) :
    ContainsInOrder
      ["# V8 correctness configs: " ++ configs,
       "# V8 correctness sources: " ++ sources,
       "# V8 correctness suppression: " ++ suppression,
       "# CHECK",
       "# Flags of " ++ la ++ ":\n" ++ f1,
       "# Flags of " ++ lb ++ ":\n" ++ f2,
       dif,
       "### Start of configuration " ++ la ++ ":\n" ++ o1,
       "### End of configuration " ++ la,
       "### Start of configuration " ++ lb ++ ":\n" ++ o2,
       "### End of configuration " ++ lb]
      (FAILURE_TEMPLATE configs sources suppression la lb f1 f2 dif o1 o2) := by
  have hT : FAILURE_TEMPLATE configs sources suppression la lb f1 f2 dif o1 o2 =
      "#\n# V8 correctness failure\n" ++ (("# V8 correctness configs: " ++ configs) ++ ("\n" ++ (("# V8 correctness sources: " ++ sources) ++ ("\n" ++ (("# V8 correctness suppression: " ++ suppression) ++ ("\n" ++ ("#\n" ++ ("# CHECK" ++ ("\n#\n" ++ ("# Compared " ++ (la ++ (" with " ++ (lb ++ ("\n#\n" ++ (("# Flags of " ++ la ++ ":\n" ++ f1) ++ ("\n" ++ (("# Flags of " ++ lb ++ ":\n" ++ f2) ++ ("\n" ++ ("#\n# Difference:\n" ++ (dif ++ ("\n#\n" ++ (("### Start of configuration " ++ la ++ ":\n" ++ o1) ++ ("\n" ++ (("### End of configuration " ++ la) ++ ("\n#\n" ++ (("### Start of configuration " ++ lb ++ ":\n" ++ o2) ++ ("\n" ++ (("### End of configuration " ++ lb) ++ ("\n"))))))))))))))))))))))))))))) := by
    simp only [FAILURE_TEMPLATE, FAILURE_HEADER_TEMPLATE, sappend_assoc]
  rw [hT]
  exact contains_pad (contains_block (contains_pad (contains_block (contains_pad (contains_block (contains_pad (contains_pad (contains_block (contains_pad (contains_pad (contains_pad (contains_pad (contains_pad (contains_pad (contains_block (contains_pad (contains_block (contains_pad (contains_pad (contains_block (contains_pad (contains_block (contains_pad (contains_block (contains_pad (contains_block (contains_pad (contains_block (trivial)))))))))))))))))))))))))))))

/-- C7 counterexample: with a first executable ending in `.py`, the launched
command line is not exactly the executable path followed by the fixed flags,
seed flag, registry flags, preamble and test case — the Python interpreter
path is prepended first. -/
theorem c7_counterexample :
    ((v8_foozzie_top envBase (some argvPy)).trace.headD ⟨[], "", 0⟩).args ≠
      ["w.py"] ++ FLAGS ++ ["--random-seed", "1"] ++ [] ++
        PREAMBLE "base" ++ ["dir/fuzzcase.js"] := by
  decide

/-- C7 as amended: every command handed to the Process Runner is, for one of
the two sides, the executable path followed by the fixed safety/debug flags,
the `--random-seed` flag with the invocation's seed, that side's registry
flags, the fixed ordered preamble scripts and the test case path — except
that an executable path ending in `.py` is additionally prefixed by the
Python interpreter (test wrapping); both sides use the identical random seed
and run in the test case's containing directory with the fixed timeout. -/
theorem c7_command_line_shape
    (env : Env) (argv : Option ArgValues) (opts : Options)
    (hp : parse_args env argv = .ok opts) :
    ∀ cmd ∈ (v8_foozzie_top env argv).trace,
      cmd.cwd = dirname opts.testcase ∧ cmd.timeout = TIMEOUT ∧
      ∃ d8 extra,
        ((d8 = opts.first_d8 ∧ CONFIGS.lookup opts.first_config = some extra) ∨
         (d8 = opts.second_d8 ∧ CONFIGS.lookup opts.second_config = some extra)) ∧
        cmd.args =
          (if strEndsWith d8 ".py" then [env.sys_executable] else []) ++
          [d8] ++ FLAGS ++ ["--random-seed", toString opts.random_seed] ++
          extra ++ PREAMBLE env.base_path ++ [opts.testcase] := by
  intro cmd hcmd
  rw [v8_foozzie_top_trace, v8_main_ok hp] at hcmd
  unfold v8_main_body at hcmd
  dsimp only at hcmd
  repeat' split at hcmd
  all_goals simp only [List.mem_cons, List.mem_singleton, List.not_mem_nil,
    or_false] at hcmd
  all_goals rcases hcmd with rfl | rfl
  all_goals first
    | exact ⟨rfl, rfl, opts.first_d8, _, Or.inl ⟨rfl, by assumption⟩,
        run_d8_args_shape env opts opts.first_d8 _⟩
    | exact ⟨rfl, rfl, opts.second_d8, _, Or.inr ⟨rfl, by assumption⟩,
        run_d8_args_shape env opts opts.second_d8 _⟩

/-- C7 witness: the first launched command of a concrete execution runs in
the test case's directory with the fixed timeout. -/
theorem c7_witness :
    ((v8_foozzie_top envBase (some argvStd)).trace.headD ⟨[], "", 0⟩).cwd = "dir" ∧
    ((v8_foozzie_top envBase (some argvStd)).trace.headD ⟨[], "", 0⟩).timeout =
      TIMEOUT := by
  have h := c7_command_line_shape envBase (some argvStd)
    (mkOptions envBase argvStd) rfl
    ((v8_foozzie_top envBase (some argvStd)).trace.headD ⟨[], "", 0⟩) (by decide)
  refine ⟨?_, h.2.1⟩
  rw [h.1]
  decide

/-- C8: the source fingerprint of a FailDifference report is the
comma-join of the per-source hashes: splitting it at commas recovers, for
each source identifier in the metadata's ordered sources list, exactly the
first 8 characters of that identifier's SHA-1 hex digest (each component
being 8 lower-case hex digits), and the fingerprint is deterministic — equal
source lists yield equal fingerprints. -/
theorem c8_fingerprint_structure (sources : List String) (hne : sources ≠ []) :
    splitString ',' (fingerprint sources) = sources.map hsh ∧
    (∀ x ∈ sources, (hsh x).data.length = 8 ∧
      ∀ c ∈ (hsh x).data, c ∈ "0123456789abcdef".data) ∧
    (∀ sources' : List String, sources = sources' →
      fingerprint sources = fingerprint sources') := by
  refine ⟨?_, ?_, ?_⟩
  · unfold fingerprint
    rw [splitString_joinWith_comma]
    · intro p hp
      rw [List.mem_map] at hp
      obtain ⟨x, _, rfl⟩ := hp
      exact hsh_ne_comma x
    · intro hmap
      exact hne (List.map_eq_nil_iff.mp hmap)
  · intro x _
    exact ⟨hsh_length x, hsh_mem_hex x⟩
  · intro sources' hs
    rw [hs]

/-- C8 witness: the fingerprint of two concrete sources splits back into
their 8-character hash prefixes. -/
theorem c8_witness :
    splitString ',' (fingerprint ["abc", "x"]) = ["abc", "x"].map hsh ∧
    (∀ x ∈ ["abc", "x"], (hsh x).data.length = 8 ∧
      ∀ c ∈ (hsh x).data, c ∈ "0123456789abcdef".data) ∧
    (∀ sources' : List String, ["abc", "x"] = sources' →
      fingerprint ["abc", "x"] = fingerprint sources') :=
  c8_fingerprint_structure ["abc", "x"] (by decide)

end Foozzie
